import Mathlib

/-!
Verification of the genuprimer repository (src/genuprimer.py, src/find_primer.py)
against its natural-language specification.

The development shallowly embeds the parts of the program the claims are
about:

* the inner function `is_significant` of `parse_bowtie_result`
  (src/genuprimer.py, lines 654-707; the identical `is_valid` appears in
  src/find_primer.py, lines 213-257);
* the region-geometry computation of `validate_options`
  (src/genuprimer.py, lines 305-352) and the engine-facing region of
  `generate_primer` (lines 937-939);
* the classifier `parse_bowtie_result` (lines 709-795);
* the registry construction of `parse_existing_primer` (lines 571-577);
* the aggregation loop of `main` (lines 455-489).

Python raises exceptions; fallible code is embedded with `Option`/`Except`
where `none`/`.error` marks a raised exception.  Python strings are Lean
`String`s; `isdigit`, `isalpha`, `int(...)`, `startswith` and `sorted` on
two-element tuples are embedded below over the character list `String.data`
(the program only ever feeds ASCII SAM fields to them).
-/

namespace Genuprimer

/-- Python `s.isdigit()` restricted to ASCII, as used on bowtie MD tokens:
nonempty and all characters are digits. -/
def pyIsDigit (s : String) : Bool := !s.data.isEmpty && s.data.all Char.isDigit

/-- Python `s.isalpha()` restricted to ASCII: nonempty and all characters are
letters. -/
def pyIsAlpha (s : String) : Bool := !s.data.isEmpty && s.data.all Char.isAlpha

/-- Python `int(s)` on a nonnegative decimal numeral (the only shape the
program feeds it when it does not raise). -/
def pyInt (s : String) : Nat := s.data.foldl (fun a c => a * 10 + (c.toNat - 48)) 0

/-- Python `int(s)` as the `Int` the surrounding arithmetic uses. -/
def intOf (s : String) : Int := (pyInt s : Int)

/-- Python `p.startswith(s)` (`str.startswith` is character-LIST equality on
the corresponding initial segment). -/
def pyStartsWith (s pre : String) : Bool := pre.data.isPrefixOf s.data

/-!
### The significance evaluator

`is_significant` (src/genuprimer.py lines 654-707).  Its final token walk

```python
i = 1
number_of_subs = 0
bases_processed = 0
while bases_processed <= bowtie_parse_options['LAST_TO_CHECK']:
    current = values[-i]
    ...
    i += 1
```

reads `values[-1], values[-2], ...`, i.e. walks the reversed token list;
when `i` exceeds `len(values)` Python raises `IndexError`, embedded as
`none`.
-/

/-- The token walk of `is_significant`: consumes the reversed token list,
accumulating the processed base count (`bases_processed`) and the mismatch
count (`number_of_subs`) while `bases_processed <= lastToCheck`; returns the
final mismatch count, or `none` for the `IndexError` raised when the walk
runs out of tokens with the loop guard still true. -/
def sigLoop (ltc : Nat) : List String → Nat → Nat → Option Nat
  | [], subs, based => if based ≤ ltc then none else some subs
  | v :: rest, subs, based =>
    if based ≤ ltc then
      (if pyIsDigit v then sigLoop ltc rest subs (based + pyInt v)
       else sigLoop ltc rest (subs + 1) (based + 1))
    else some subs

/-- `is_significant(values)` from `parse_bowtie_result` (src/genuprimer.py
lines 654-707); `is_valid` in src/find_primer.py lines 213-257 is the same
function.  `values` is the filtered token list; `none` is a raised
`IndexError` (`values[-1]` on an empty list, or the walk running past the
start of the list). -/
def is_significant (lmm ltc lme : Nat) (values : List String) : Option Bool :=
  match values.getLast? with
  | none => none
  | some last =>
    if pyIsDigit last then
      if pyInt last < lmm then some false
      else if values.length = 1 then some true
      else (sigLoop ltc values.reverse 0 0).map (fun subs => decide (subs < lme))
    else if pyIsAlpha last && !(lmm == 0) then some false
    else (sigLoop ltc values.reverse 0 0).map (fun subs => decide (subs < lme))

/-- `is_valid` of src/find_primer.py (lines 213-257): textually the same
algorithm as `is_significant`. -/
def is_valid (lmm ltc lme : Nat) (values : List String) : Option Bool :=
  is_significant lmm ltc lme values

/-- Number of bases a token stands for in the walk of `is_significant`: the
numeric value for a digit token, `1` for anything else. -/
def tokenBases (v : String) : Nat := if pyIsDigit v then pyInt v else 1

/-- Total number of bases a token sequence encodes. -/
def totalBases (values : List String) : Nat := (values.map tokenBases).sum

/-- An ASCII letter is not an ASCII digit. -/
theorem char_isAlpha_isDigit_false (c : Char) (h : c.isAlpha = true) :
    c.isDigit = false := by
  by_contra hd
  rw [Bool.not_eq_false] at hd
  simp only [Char.isAlpha, Char.isUpper, Char.isLower, Char.isDigit,
    Bool.or_eq_true, Bool.and_eq_true, decide_eq_true_eq,
    UInt32.le_def, BitVec.le_def] at h hd
  have e48 : (UInt32.toBitVec 48).toNat = 48 := rfl
  have e57 : (UInt32.toBitVec 57).toNat = 57 := rfl
  have e65 : (UInt32.toBitVec 65).toNat = 65 := rfl
  have e90 : (UInt32.toBitVec 90).toNat = 90 := rfl
  have e97 : (UInt32.toBitVec 97).toNat = 97 := rfl
  have e122 : (UInt32.toBitVec 122).toNat = 122 := rfl
  rw [e48, e57] at hd
  rw [e65, e90, e97, e122] at h
  omega

/-- A token satisfying Python `isalpha` does not satisfy `isdigit`
(this is why the `elif` branch of `is_significant` is reached exactly when
the last token is non-numeric). -/
theorem pyIsAlpha_pyIsDigit_false (s : String) (h : pyIsAlpha s = true) :
    pyIsDigit s = false := by
  unfold pyIsAlpha at h
  unfold pyIsDigit
  cases hd : s.data with
  | nil => rw [hd] at h; simp at h
  | cons c cs =>
    rw [hd] at h
    simp only [Bool.and_eq_true, List.all_cons] at h
    have hc : c.isDigit = false :=
      char_isAlpha_isDigit_false c h.2.1
    simp [List.all_cons, hc]

/-- If the walk starts with the whole remaining token budget inside the
inclusive bound, it runs out of tokens and raises (`none`). -/
theorem sigLoop_eq_none (ltc : Nat) : ∀ (rev : List String) (subs based : Nat),
    based + totalBases rev ≤ ltc → sigLoop ltc rev subs based = none := by
  intro rev
  induction rev with
  | nil =>
    intro subs based h
    simp only [totalBases, List.map_nil, List.sum_nil, Nat.add_zero] at h
    simp [sigLoop, h]
  | cons v rest ih =>
    intro subs based h
    have htb : totalBases (v :: rest) = tokenBases v + totalBases rest := by
      simp [totalBases]
    rw [htb] at h
    have hb : based ≤ ltc := by omega
    by_cases hdg : pyIsDigit v = true
    · have htv : tokenBases v = pyInt v := by simp [tokenBases, hdg]
      rw [htv] at h
      simp only [sigLoop, hb, if_true, hdg]
      exact ih subs (based + pyInt v) (by omega)
    · have htv : tokenBases v = 1 := by simp [tokenBases, hdg]
      rw [htv] at h
      simp only [sigLoop, hb, if_true, hdg, if_false]
      exact ih (subs + 1) (based + 1) (by omega)

/-- Reversing the token list does not change the number of encoded bases. -/
theorem totalBases_reverse (l : List String) : totalBases l.reverse = totalBases l := by
  simp [totalBases, List.map_reverse, List.sum_reverse]

/-- Unfolding of `is_significant` once the last token is known. -/
theorem is_significant_eq (lmm ltc lme : Nat) (values : List String) (s : String)
    (h : values.getLast? = some s) :
    is_significant lmm ltc lme values =
      (if pyIsDigit s then
        if pyInt s < lmm then some false
        else if values.length = 1 then some true
        else (sigLoop ltc values.reverse 0 0).map (fun subs => decide (subs < lme))
      else if pyIsAlpha s && !(lmm == 0) then some false
      else (sigLoop ltc values.reverse 0 0).map (fun subs => decide (subs < lme))) := by
  unfold is_significant
  rw [h]

/-- Claim C2: for every token sequence not decided by the trailing-token
rules (last token numeric with value at least `lastMustMatch` in a sequence
of length other than one, or last token non-numeric without triggering the
alphabetic rule), `is_significant` walks the tokens from the end (`sigLoop`
on the reversed list), adding the numeric value of each digit token and `1`
for each mismatch character to `bases_processed` and counting mismatch
characters, continuing while `bases_processed ≤ lastToCheck` (inclusive
bound), and returns significant iff the final mismatch count is strictly
below `lastMaxError`; with `lastToCheck = 12` and `lastMaxError = 5`, a
sequence with exactly 4 mismatches in the checked window is significant and
one with 5 is not. -/
theorem claim_C2_token_walk :
    (∀ (lmm ltc lme : Nat) (values : List String) (s : String) (subs : Nat),
      values.getLast? = some s →
      ((pyIsDigit s = true ∧ lmm ≤ pyInt s ∧ values.length ≠ 1) ∨
        (pyIsDigit s = false ∧ ¬(pyIsAlpha s = true ∧ lmm ≠ 0))) →
      sigLoop ltc values.reverse 0 0 = some subs →
      is_significant lmm ltc lme values = some (decide (subs < lme)))
    ∧ is_significant 3 12 5 ["20", "A", "A", "A", "A", "8"] = some true
    ∧ is_significant 3 12 5 ["20", "A", "A", "A", "A", "A", "7"] = some false := by
  refine ⟨?_, by decide, by decide⟩
  intro lmm ltc lme values s subs hlast hcond hloop
  rw [is_significant_eq lmm ltc lme values s hlast]
  rcases hcond with ⟨hdg, hge, hlen⟩ | ⟨hndg, hna⟩
  · rw [if_pos hdg, if_neg (by omega), if_neg hlen, hloop]
    rfl
  · have h1 : ¬ (pyIsDigit s = true) := by simp [hndg]
    rw [if_neg h1]
    have h2 : ¬ ((pyIsAlpha s && !(lmm == 0)) = true) := by
      intro hx
      rcases (Bool.and_eq_true _ _).mp hx with ⟨ha, hb⟩
      exact hna ⟨ha, by simpa using hb⟩
    rw [if_neg h2, hloop]
    rfl

/-- Witness for claim C2 at a concrete input: the walk over
`["20","A","A","A","A","8"]` stops with 4 mismatches and the hit is
significant. -/
theorem claim_C2_token_walk_witness :
    sigLoop 12 (["20", "A", "A", "A", "A", "8"].reverse) 0 0 = some 4 ∧
      is_significant 3 12 5 ["20", "A", "A", "A", "A", "8"] = some (decide (4 < 5)) :=
  ⟨by decide,
    claim_C2_token_walk.1 3 12 5 ["20", "A", "A", "A", "A", "8"] "8" 4
      (by decide) (by decide) (by decide)⟩

/-- Claim C3: trailing-token rules of `is_significant`: a numeric last token
below `lastMustMatch` is not significant; a sequence consisting of exactly
one numeric token of value at least `lastMustMatch` is significant (in
particular `["12"]` with `lastMustMatch = 10`); an alphabetic last token
with nonzero `lastMustMatch` is not significant. -/
theorem claim_C3_trailing_rules :
    (∀ (lmm ltc lme : Nat) (values : List String) (s : String),
      values.getLast? = some s → pyIsDigit s = true → pyInt s < lmm →
      is_significant lmm ltc lme values = some false)
    ∧ (∀ (lmm ltc lme : Nat) (s : String),
      pyIsDigit s = true → lmm ≤ pyInt s →
      is_significant lmm ltc lme [s] = some true)
    ∧ (∀ (lmm ltc lme : Nat) (values : List String) (s : String),
      values.getLast? = some s → pyIsAlpha s = true → lmm ≠ 0 →
      is_significant lmm ltc lme values = some false)
    ∧ is_significant 10 12 5 ["12"] = some true := by
  refine ⟨?_, ?_, ?_, by decide⟩
  · intro lmm ltc lme values s hlast hdg hlt
    rw [is_significant_eq lmm ltc lme values s hlast, if_pos hdg, if_pos hlt]
  · intro lmm ltc lme s hdg hge
    have hlast : [s].getLast? = some s := rfl
    rw [is_significant_eq lmm ltc lme [s] s hlast, if_pos hdg,
      if_neg (by omega), if_pos (by simp)]
  · intro lmm ltc lme values s hlast hal hne
    have hndg : pyIsDigit s = false := pyIsAlpha_pyIsDigit_false s hal
    rw [is_significant_eq lmm ltc lme values s hlast,
      if_neg (by simp [hndg]), if_pos (by simp [hal, hne])]

/-- Witness for claim C3 at a concrete input: last token `"2"` is numeric
and below `lastMustMatch = 3`, so the hit is not significant. -/
theorem claim_C3_trailing_rules_witness :
    pyIsDigit "2" = true ∧ pyInt "2" < 3 ∧
      is_significant 3 12 5 ["A", "2"] = some false :=
  ⟨by decide, by decide,
    claim_C3_trailing_rules.1 3 12 5 ["A", "2"] "2" (by decide) (by decide)
      (by decide)⟩

/-- Claim C4 is false on the code: on the empty token sequence with
`lastMustMatch = 0` the evaluation does not return "significant"; it raises
an `IndexError` at `values[-1]` (embedded as `none`). -/
theorem claim_C4_counterexample :
    is_significant 0 12 5 ([] : List String) = none ∧
      is_significant 0 12 5 ([] : List String) ≠ some true :=
  ⟨rfl, by decide⟩

/-- Claim C4 amended: on the empty token sequence `is_significant` raises
(`none`) for every threshold configuration, including `lastMustMatch = 0`;
it never treats the empty sequence as a significant perfect match. -/
theorem claim_C4_empty_raises :
    ∀ lmm ltc lme : Nat, is_significant lmm ltc lme ([] : List String) = none := by
  intro lmm ltc lme
  rfl

/-- Claim C10 is false as stated: its universal quantification over all
token sequences encoding at most `lastToCheck` bases ignores the early
trailing-token returns; `["2"]` encodes 2 ≤ 12 bases, yet with the default
thresholds (3, 12, 5) the evaluator returns the boolean `false` instead of
raising. -/
theorem claim_C10_counterexample :
    totalBases ["2"] ≤ 12 ∧ is_significant 3 12 5 ["2"] = some false := by
  constructor
  · decide
  · decide

/-- Claim C10 amended: the significance evaluator is not total: it raises
(`none`) on the empty token sequence, and on every token sequence that is
not decided by the trailing-token rules and whose tokens together encode at
most `lastToCheck` bases the walk indexes past the start of the sequence
and raises instead of returning a boolean. -/
theorem claim_C10_not_total :
    (∀ lmm ltc lme : Nat, is_significant lmm ltc lme ([] : List String) = none)
    ∧ (∀ (lmm ltc lme : Nat) (values : List String) (s : String),
      values.getLast? = some s →
      ((pyIsDigit s = true ∧ lmm ≤ pyInt s ∧ values.length ≠ 1) ∨
        (pyIsDigit s = false ∧ ¬(pyIsAlpha s = true ∧ lmm ≠ 0))) →
      totalBases values ≤ ltc →
      is_significant lmm ltc lme values = none) := by
  refine ⟨fun _ _ _ => rfl, ?_⟩
  intro lmm ltc lme values s hlast hcond htot
  have hloop : sigLoop ltc values.reverse 0 0 = none := by
    apply sigLoop_eq_none
    rw [totalBases_reverse]
    omega
  rw [is_significant_eq lmm ltc lme values s hlast]
  rcases hcond with ⟨hdg, hge, hlen⟩ | ⟨hndg, hna⟩
  · rw [if_pos hdg, if_neg (by omega), if_neg hlen, hloop]
    rfl
  · have h1 : ¬ (pyIsDigit s = true) := by simp [hndg]
    rw [if_neg h1]
    have h2 : ¬ ((pyIsAlpha s && !(lmm == 0)) = true) := by
      intro hx
      rcases (Bool.and_eq_true _ _).mp hx with ⟨ha, hb⟩
      exact hna ⟨ha, by simpa using hb⟩
    rw [if_neg h2, hloop]
    rfl

/-- Witness for the amended claim C10: `["5","A","2"]` encodes 8 ≤ 12 bases,
is not decided by the trailing rules for `lastMustMatch = 2`, and the
evaluation raises. -/
theorem claim_C10_not_total_witness :
    totalBases ["5", "A", "2"] ≤ 12 ∧
      is_significant 2 12 5 ["5", "A", "2"] = none :=
  ⟨by decide,
    claim_C10_not_total.2 2 12 5 ["5", "A", "2"] "2" (by decide) (by decide)
      (by decide)⟩

/-!
### Region geometry

`validate_options` (src/genuprimer.py lines 305-352), on the path where the
product size range `size = (min, max)` and the insert position
`pos = (begin, end)` have both been supplied.  `sys.exit(1)` after a logged
error is embedded as `.error` with the logged message.
-/

/-- The `SEQUENCE_PRIMER_PAIR_OK_REGION_LIST` built at lines 333-345:
leftmost position, leftmost overlap, right start, rightmost overlap. -/
def pair_ok_region_list (size pos : Int × Int) : List Int :=
  [pos.2 - size.2,
   size.2 - (pos.2 - pos.1),
   pos.2,
   size.2 - (pos.2 - pos.1)]

/-- The `sequence_included_region` tuple built at lines 347-352: leftmost
position and rightmost position plus the rightmost overlap. -/
def sequence_included_region (size pos : Int × Int) : Int × Int :=
  (pos.2 - size.2, pos.2 + (size.2 - (pos.2 - pos.1)))

/-- The checks and region computation of `validate_options`
(lines 313-352). -/
def validate_options (size pos : Int × Int) :
    Except String (List Int × (Int × Int)) :=
  if size.1 ≥ size.2 then .error "Product size range must be positive"
  else if pos.1 ≥ pos.2 then .error "Target position range must be positive"
  else if pos.2 - pos.1 > size.1 then
    .error "Minimal product size must be larger than insert size"
  else .ok (pair_ok_region_list size pos, sequence_included_region size pos)

/-- The engine-facing `SEQUENCE_INCLUDED_REGION` of `generate_primer`
(lines 937-939): start of the window and its length. -/
def included_region_for_engine (win : Int × Int) : List Int :=
  [win.1, win.2 - win.1]

/-- `main`'s control flow around the external tools (lines 381, 420, 440,
448): `validate_options` runs first, and only on success does the run reach
the design engine and then the aligner, here taken as arbitrary functions
`design` and `align`. -/
def run_pipeline {α β : Type} (size pos : Int × Int)
    (design : List Int → (Int × Int) → α) (align : α → β) :
    Except String β :=
  match validate_options size pos with
  | .error e => .error e
  | .ok (okl, win) => .ok (align (design okl win))

/-- A configuration violating one of the three geometry preconditions makes
`validate_options` exit with an error. -/
theorem validate_options_invalid (size pos : Int × Int)
    (h : pos.2 ≤ pos.1 ∨ size.2 ≤ size.1 ∨ size.1 < pos.2 - pos.1) :
    ∃ e, validate_options size pos = Except.error e := by
  unfold validate_options
  by_cases hs : size.1 ≥ size.2
  · rw [if_pos hs]
    exact ⟨_, rfl⟩
  · rw [if_neg hs]
    by_cases hp : pos.1 ≥ pos.2
    · rw [if_pos hp]
      exact ⟨_, rfl⟩
    · rw [if_neg hp]
      have hins : pos.2 - pos.1 > size.1 := by omega
      rw [if_pos hins]
      exact ⟨_, rfl⟩

/-- Claim C1: for every valid target position `(begin, end)` and product
size range `(min, max)`, the region solver computes
`leftStart = end - max`, `overlap = max - (end - begin)`,
`rightStart = end`, the pair-ok-region list
`(leftStart, overlap, rightStart, overlap)`, and an inclusion window
spanning from `leftStart` to `end + overlap`, handed to the design engine
as start `leftStart` and length `(end + overlap) - leftStart`; for target
`(100, 150)` and size `(200, 300)` this gives `leftStart = -150`,
`overlap = 250`, and a window starting at `-150` of length `550`. -/
theorem claim_C1_region_geometry :
    (∀ size pos : Int × Int, pos.1 < pos.2 → size.1 < size.2 →
      pos.2 - pos.1 ≤ size.1 →
      validate_options size pos =
        .ok ([pos.2 - size.2, size.2 - (pos.2 - pos.1), pos.2,
              size.2 - (pos.2 - pos.1)],
             (pos.2 - size.2, pos.2 + (size.2 - (pos.2 - pos.1)))) ∧
      included_region_for_engine (sequence_included_region size pos) =
        [pos.2 - size.2, (pos.2 + (size.2 - (pos.2 - pos.1))) - (pos.2 - size.2)])
    ∧ validate_options (200, 300) (100, 150) =
        .ok ([-150, 250, 150, 250], (-150, 400))
    ∧ included_region_for_engine (-150, 400) = [-150, 550] := by
  refine ⟨?_, by rfl, by rfl⟩
  intro size pos h1 h2 h3
  constructor
  · unfold validate_options
    rw [if_neg (by omega), if_neg (by omega), if_neg (by omega)]
    rfl
  · rfl

/-- Witness for claim C1 at the end-to-end scenario of the specification:
target `(100, 150)`, size range `(200, 300)`. -/
theorem claim_C1_region_geometry_witness :
    (100 : Int) < 150 ∧ (200 : Int) < 300 ∧ (150 : Int) - 100 ≤ 200 ∧
      validate_options (200, 300) (100, 150) =
        .ok ([-150, 250, 150, 250], (-150, 400)) :=
  ⟨by decide, by decide, by decide,
    (claim_C1_region_geometry.1 (200, 300) (100, 150) (by decide) (by decide)
      (by decide)).1⟩

/-- Claim C7: an empty or inverted target (`end ≤ begin`), an inverted or
degenerate size range (`min ≥ max`), or an insert larger than the minimum
product size (`end - begin > min`) makes the run fail with a configuration
error, and `run_pipeline` yields that error whatever the external design
engine and aligner would do — they are never consulted; a configuration
with `end - begin` exactly equal to `min` passes validation. -/
theorem claim_C7_validation :
    (∀ size pos : Int × Int,
      (pos.2 ≤ pos.1 ∨ size.2 ≤ size.1 ∨ size.1 < pos.2 - pos.1) →
      ∃ e, validate_options size pos = Except.error e)
    ∧ (∀ size pos : Int × Int, size.1 < size.2 → pos.1 < pos.2 →
      pos.2 - pos.1 = size.1 →
      validate_options size pos =
        .ok (pair_ok_region_list size pos, sequence_included_region size pos))
    ∧ (∀ (α β : Type) (design : List Int → (Int × Int) → α) (align : α → β)
        (size pos : Int × Int),
      (pos.2 ≤ pos.1 ∨ size.2 ≤ size.1 ∨ size.1 < pos.2 - pos.1) →
      ∃ e, run_pipeline size pos design align = Except.error e) := by
  refine ⟨validate_options_invalid, ?_, ?_⟩
  · intro size pos h1 h2 h3
    unfold validate_options
    rw [if_neg (by omega), if_neg (by omega), if_neg (by omega)]
  · intro α β design align size pos h
    obtain ⟨e, he⟩ := validate_options_invalid size pos h
    refine ⟨e, ?_⟩
    unfold run_pipeline
    rw [he]

/-- Witness for claim C7: an inverted size range is rejected (also through
the full pipeline, independently of the external tools), and a target whose
width equals the minimum product size is accepted. -/
theorem claim_C7_validation_witness :
    (∃ e, validate_options (300, 200) (100, 150) = Except.error e) ∧
      validate_options (50, 300) (100, 150) =
        .ok (pair_ok_region_list (50, 300) (100, 150),
             sequence_included_region (50, 300) (100, 150)) ∧
      (∃ e, run_pipeline (300, 200) (100, 150) (fun _ _ => ()) (fun x => x) =
        Except.error e) :=
  ⟨claim_C7_validation.1 (300, 200) (100, 150) (by decide),
   claim_C7_validation.2.1 (50, 300) (100, 150) (by decide) (by decide) (by decide),
   claim_C7_validation.2.2 Unit Unit (fun _ _ => ()) (fun x => x) (300, 200)
     (100, 150) (by decide)⟩

/-!
### The classifier `parse_bowtie_result` (src/genuprimer.py lines 709-795)

A raw aligner line is embedded as its list of whitespace-separated fields
(every access in the code goes through `line.split()`).  Python string
comparison, used by `sorted` on the two primer names, is lexicographic on
code points.
-/

/-- Python string `<`: lexicographic comparison of the code-point lists. -/
def strLtB : List Char → List Char → Bool
  | [], [] => false
  | [], _ :: _ => true
  | _ :: _, [] => false
  | a :: as, b :: bs => if a < b then true else if b < a then false else strLtB as bs

/-- Python `a < b` on strings. -/
def pyLt (a b : String) : Bool := strLtB a.data b.data

/-- Lexicographic comparison is asymmetric. -/
theorem strLtB_asymm : ∀ as bs, strLtB as bs = true → strLtB bs as = false := by
  intro as
  induction as with
  | nil =>
    intro bs h
    cases bs with
    | nil => simp [strLtB] at h
    | cons b bs => simp [strLtB]
  | cons a as ih =>
    intro bs h
    cases bs with
    | nil => simp [strLtB] at h
    | cons b bs =>
      simp only [strLtB] at h ⊢
      rcases lt_trichotomy a b with h1 | h1 | h1
      · rw [if_neg (asymm h1), if_pos h1]
      · subst h1
        rw [if_neg (lt_irrefl a), if_neg (lt_irrefl a)] at h ⊢
        exact ih bs h
      · rw [if_neg (asymm h1), if_pos h1] at h
        exact absurd h (by simp)

/-- Lexicographic comparison is trichotomous. -/
theorem strLtB_trichotomy :
    ∀ as bs, strLtB as bs = true ∨ as = bs ∨ strLtB bs as = true := by
  intro as
  induction as with
  | nil =>
    intro bs
    cases bs with
    | nil => right; left; rfl
    | cons b bs => left; simp [strLtB]
  | cons a as ih =>
    intro bs
    cases bs with
    | nil => right; right; simp [strLtB]
    | cons b bs =>
      rcases lt_trichotomy a b with h1 | h1 | h1
      · left; simp [strLtB, h1]
      · subst h1
        rcases ih bs with h2 | h2 | h2
        · left; simp [strLtB, lt_irrefl, h2]
        · right; left; rw [h2]
        · right; right; simp [strLtB, lt_irrefl, h2]
      · right; right; simp [strLtB, h1]

/-- `tuple(sorted((a, b)))` on two strings (lines 571-577, 746, 986):
the pair in ascending order. -/
def sortPair (a b : String) : String × String := if pyLt a b then (a, b) else (b, a)

/-- `s.replace('\n', '').replace('\r', '')` (lines 574-575): every newline
and carriage-return character is removed. -/
def stripNewlines (s : String) : String :=
  String.mk (s.data.filter (fun c => !(c == '\n' || c == '\r')))

/-- The registry construction of `parse_existing_primer` (lines 571-577):
the zipped (id, sequence) pairs from the two primer files are keyed by the
sorted tuple of the two ids. -/
def build_primer_dict (ls rs : List (String × String)) :
    List ((String × String) × (String × String)) :=
  (ls.zip rs).map (fun p =>
    (sortPair p.1.1 p.2.1, (stripNewlines p.1.2, stripNewlines p.2.2)))

/-- Maximal runs of digit and of non-digit characters, in order.
`re.split('(\d+)', s)` (lines 722-723) produces exactly these runs plus
empty boundary chunks, and the empty chunks are dropped by the filter that
always follows, so the runs are the tokens that survive. -/
def charRuns : List Char → List Char → List String
  | [], acc => if acc.isEmpty then [] else [String.mk acc.reverse]
  | c :: rest, acc =>
    match acc with
    | [] => charRuns rest [c]
    | a :: _ =>
      if a.isDigit == c.isDigit then charRuns rest (c :: acc)
      else String.mk acc.reverse :: charRuns rest [c]

/-- `remove_empty_mismatch` (lines 725-734): keep a chunk unless it is `''`
or `'0'`. -/
def remove_empty_mismatch (x : String) : Bool := !(x == "" || x == "0")

/-- `list(filter(remove_empty_mismatch, re.split('(\d+)', s)))`
(lines 722-738). -/
def tokenize (s : String) : List String :=
  (charRuns s.data []).filter remove_empty_mismatch

/-- Python `s.split(sep)` for a one-character separator: split at every
occurrence, keeping empty parts. -/
def splitOnCharAux (sep : Char) : List Char → List Char → List String
  | [], acc => [String.mk acc.reverse]
  | c :: rest, acc =>
    if c = sep then String.mk acc.reverse :: splitOnCharAux sep rest []
    else splitOnCharAux sep rest (c :: acc)

/-- Python `s.split(':')`. -/
def pySplitColon (s : String) : List String := splitOnCharAux ':' s.data []

/-- `field.split(':')[2]`: the mismatch-encoding segment of an `MD:Z:...`
field (lines 722-723). -/
def mdPart (s : String) : String := (pySplitColon s).getD 2 ""

/-- The token list the classifier evaluates for one raw line: field 12,
split at `':'`, third part, tokenized and filtered. -/
def lineTokens (line : List String) : List String :=
  tokenize (mdPart (line.getD 12 ""))

/-- One CSV record of the final report as formatted at lines 782-792.
`start` and `size` are emitted verbatim as reported by the aligner; `stop`
is recomputed. -/
structure BowtieHit where
  fwd : String
  rev : String
  gi : String
  left_primer : String
  right_primer : String
  start : String
  stop : Int
  size : String
  exp : Bool
deriving DecidableEq, Repr

/-- Equality of embedded run results is decidable, so concrete runs of the
classifier can be checked by evaluation. -/
instance exceptDecEq {ε α : Type} [DecidableEq ε] [DecidableEq α] :
    DecidableEq (Except ε α) := fun a b =>
  match a, b with
  | .error x, .error y =>
    if h : x = y then .isTrue (by rw [h])
    else .isFalse (fun hc => by cases hc; exact h rfl)
  | .error _, .ok _ => .isFalse (fun hc => by cases hc)
  | .ok _, .error _ => .isFalse (fun hc => by cases hc)
  | .ok x, .ok y =>
    if h : x = y then .isTrue (by rw [h])
    else .isFalse (fun hc => by cases hc; exact h rfl)

/-- `parse_bowtie_result` (lines 709-795).  `.ok none` is the `(None, None)`
"no hit" result; `.ok (some (key, hit))` is a materialized hit under its
pair key; `.error` is a raised exception (an `IndexError` escaping
`is_significant`, or the `TypeError` triggered when the pair key is absent
from the registry and `None` gets subscripted). -/
def parse_bowtie_result (lmm ltc lme : Nat) (lineL lineR : List String)
    (primer_dict : String × String → Option (String × String))
    (seq_included_region : Int × Int) (additional_fasta : Bool)
    (seq_id : String) (keep_primer : Bool) :
    Except String (Option ((String × String) × BowtieHit)) :=
  if lineL.length ≤ 12 ∨ lineR.length ≤ 12 then .ok none
  else
    let left_name := lineL.getD 0 ""
    let right_name := lineR.getD 0 ""
    match is_significant lmm ltc lme (lineTokens lineL) with
    | none => .error "IndexError"
    | some false => .ok none
    | some true =>
      match is_significant lmm ltc lme (lineTokens lineR) with
      | none => .error "IndexError"
      | some false => .ok none
      | some true =>
        let infos := lineL
        let current_dict_key := sortPair left_name right_name
        match primer_dict current_dict_key with
        | none => .error "TypeError: pair not in registry"
        | some current_pair =>
          let start := intOf (infos.getD 3 "")
          let stop := intOf (infos.getD 7 "")
          let expected_hit :=
            if additional_fasta then false
            else if keep_primer then
              decide (seq_included_region.1 ≤ start) && decide (start ≤ stop) &&
                decide (stop ≤ seq_included_region.2) &&
                pyStartsWith (infos.getD 2 "") seq_id
            else
              decide (seq_included_region.1 ≤ start) && decide (start ≤ stop) &&
                decide (stop ≤ seq_included_region.2) &&
                (infos.getD 2 "" == seq_id)
          .ok (some (current_dict_key,
            { fwd := left_name, rev := right_name, gi := infos.getD 2 "",
              left_primer := current_pair.1, right_primer := current_pair.2,
              start := infos.getD 3 "",
              stop := stop + (current_pair.2.length : Int),
              size := infos.getD 8 "", exp := expected_hit }))

/-- Both `start` and `stop` lie within the window, read as the reported
span `[start, stop]` being contained in it:
`window.start ≤ start ≤ stop ≤ window.end`. -/
def inWindowB (w : Int × Int) (a b : Int) : Bool :=
  decide (w.1 ≤ a) && decide (a ≤ b) && decide (b ≤ w.2)

/-- The expected-flag rule in the specification's wording (§4.3): an
additional, unindexed primer source is never expected; preset primers
require the user-given id to lead the reported reference id plus window
containment of start/stop; a normal design run requires exact reference-id
equality plus window containment. -/
def expectedSpec (additional keep : Bool) (w : Int × Int) (start stop : Int)
    (refId sid : String) : Bool :=
  if additional then false
  else if keep then inWindowB w start stop && pyStartsWith refId sid
  else inWindowB w start stop && (refId == sid)

/-- Inversion of a materialized hit: if `parse_bowtie_result` returns a
hit, the lines were long enough, both mismatch encodings were significant,
the registry had the sorted pair of the two name fields, that sorted pair
is the returned key, and the record's fields are as built at
lines 782-792. -/
theorem parse_bowtie_result_ok_some (lmm ltc lme : Nat) (lineL lineR : List String)
    (dict : String × String → Option (String × String))
    (region : Int × Int) (addl : Bool) (sid : String) (keep : Bool)
    (key : String × String) (hit : BowtieHit)
    (h : parse_bowtie_result lmm ltc lme lineL lineR dict region addl sid keep =
      .ok (some (key, hit))) :
    ∃ cp, ¬(lineL.length ≤ 12 ∨ lineR.length ≤ 12) ∧
      is_significant lmm ltc lme (lineTokens lineL) = some true ∧
      is_significant lmm ltc lme (lineTokens lineR) = some true ∧
      dict (sortPair (lineL.getD 0 "") (lineR.getD 0 "")) = some cp ∧
      key = sortPair (lineL.getD 0 "") (lineR.getD 0 "") ∧
      hit = { fwd := lineL.getD 0 "", rev := lineR.getD 0 "",
              gi := lineL.getD 2 "", left_primer := cp.1, right_primer := cp.2,
              start := lineL.getD 3 "",
              stop := intOf (lineL.getD 7 "") + (cp.2.length : Int),
              size := lineL.getD 8 "",
              exp := if addl then false
                     else if keep then
                       decide (region.1 ≤ intOf (lineL.getD 3 "")) &&
                         decide (intOf (lineL.getD 3 "") ≤ intOf (lineL.getD 7 "")) &&
                         decide (intOf (lineL.getD 7 "") ≤ region.2) &&
                         pyStartsWith (lineL.getD 2 "") sid
                     else
                       decide (region.1 ≤ intOf (lineL.getD 3 "")) &&
                         decide (intOf (lineL.getD 3 "") ≤ intOf (lineL.getD 7 "")) &&
                         decide (intOf (lineL.getD 7 "") ≤ region.2) &&
                         (lineL.getD 2 "" == sid) } := by
  unfold parse_bowtie_result at h
  split at h
  · simp at h
  · next hshort =>
    split at h
    · simp at h
    · simp at h
    · next heqL =>
      split at h
      · simp at h
      · simp at h
      · next heqR =>
        split at h
        · next haddl =>
          subst haddl
          dsimp only at h
          split at h
          · simp at h
          · next cp heqD =>
            simp only [Except.ok.injEq, Option.some.injEq, Prod.mk.injEq] at h
            exact ⟨cp, hshort, heqL, heqR, heqD, h.1.symm, h.2.symm⟩
        · next haddl =>
          have ha : addl = false := by revert haddl; cases addl <;> simp
          subst ha
          split at h
          · next hkeep =>
            subst hkeep
            dsimp only at h
            split at h
            · simp at h
            · next cp heqD =>
              simp only [Except.ok.injEq, Option.some.injEq, Prod.mk.injEq] at h
              exact ⟨cp, hshort, heqL, heqR, heqD, h.1.symm, h.2.symm⟩
          · next hkeep =>
            have hk : keep = false := by revert hkeep; cases keep <;> simp
            subst hk
            dsimp only at h
            split at h
            · simp at h
            · next cp heqD =>
              simp only [Except.ok.injEq, Option.some.injEq, Prod.mk.injEq] at h
              exact ⟨cp, hshort, heqL, heqR, heqD, h.1.symm, h.2.symm⟩

/-- A forward and a reverse sample record pair with a perfect `MD:Z:20`
match, used as concrete test vectors. -/
def sampleLineL : List String :=
  ["PRIMER_LEFT_0", "99", "gi123", "100", "255", "20M", "=", "280", "200",
   "ACGTACGTACGTACGTACGT", "IIII", "XX:i:0", "MD:Z:20"]

/-- The reverse-side sample record. -/
def sampleLineR : List String :=
  ["PRIMER_RIGHT_0", "147", "gi123", "280", "255", "20M", "=", "100", "-200",
   "ACGTACGTACGTACGTACGT", "IIII", "XX:i:0", "MD:Z:20"]

/-- A forward sample record whose mismatch encoding `MD:Z:2` fails the
default `LAST_MUST_MATCH = 3`. -/
def sampleBadLineL : List String :=
  ["PRIMER_LEFT_0", "99", "gi123", "100", "255", "20M", "=", "280", "200",
   "ACGTACGTACGTACGTACGT", "IIII", "XX:i:0", "MD:Z:2"]

/-- A registry holding the sample pair. -/
def sampleDict : String × String → Option (String × String) := fun k =>
  if k = ("PRIMER_LEFT_0", "PRIMER_RIGHT_0") then some ("ACGTACGT", "TTTT")
  else none

/-- The hit the classifier produces from the sample records. -/
def sampleHit : BowtieHit :=
  { fwd := "PRIMER_LEFT_0", rev := "PRIMER_RIGHT_0", gi := "gi123",
    left_primer := "ACGTACGT", right_primer := "TTTT",
    start := "100", stop := 284, size := "200", exp := true }

/-- Claim C5: every classified hit carries the expected flag obtained as
follows: an additional, unindexed primer source is never expected; with
preset primers the hit is expected iff the user-given id leads the reported
reference id and start/stop lie within the inclusion window; otherwise iff
the reference id equals the expected id exactly and start/stop lie within
the window; and the record's stop field is the aligner-reported end plus
the length of the hit's reverse primer sequence. -/
theorem claim_C5_expected_flag :
    ∀ (lmm ltc lme : Nat) (lineL lineR : List String)
      (dict : String × String → Option (String × String))
      (region : Int × Int) (addl : Bool) (sid : String) (keep : Bool)
      (key : String × String) (hit : BowtieHit),
      parse_bowtie_result lmm ltc lme lineL lineR dict region addl sid keep =
        .ok (some (key, hit)) →
      hit.exp = expectedSpec addl keep region (intOf (lineL.getD 3 ""))
          (intOf (lineL.getD 7 "")) (lineL.getD 2 "") sid
        ∧ hit.stop = intOf (lineL.getD 7 "") + (hit.right_primer.length : Int) := by
  intro lmm ltc lme lineL lineR dict region addl sid keep key hit h
  obtain ⟨cp, -, -, -, -, -, hh⟩ :=
    parse_bowtie_result_ok_some lmm ltc lme lineL lineR dict region addl sid
      keep key hit h
  subst hh
  exact ⟨rfl, rfl⟩

/-- Witness for claim C5: on the sample records (a normal design run) the
hit is expected and its stop field is `280 + 4`. -/
theorem claim_C5_expected_flag_witness :
    parse_bowtie_result 3 12 5 sampleLineL sampleLineR sampleDict (0, 1000)
        false "gi123" false =
      .ok (some (("PRIMER_LEFT_0", "PRIMER_RIGHT_0"), sampleHit)) ∧
    sampleHit.exp = expectedSpec false false (0, 1000)
        (intOf (sampleLineL.getD 3 "")) (intOf (sampleLineL.getD 7 ""))
        (sampleLineL.getD 2 "") "gi123" ∧
    sampleHit.stop = intOf (sampleLineL.getD 7 "") + (sampleHit.right_primer.length : Int) := by
  refine ⟨by decide, ?_⟩
  have h := claim_C5_expected_flag 3 12 5 sampleLineL sampleLineR sampleDict
    (0, 1000) false "gi123" false ("PRIMER_LEFT_0", "PRIMER_RIGHT_0") sampleHit
    (by decide)
  exact h

/-- Claim C8: the classifier returns "no hit" (absence, not an error) when
either raw line has fewer than 13 whitespace-separated fields; it
materializes a hit only when both mismatch encodings evaluate as
significant; and when an evaluated side is not significant the record pair
is silently skipped with "no hit". -/
theorem claim_C8_no_hit :
    (∀ (lmm ltc lme : Nat) (lineL lineR : List String)
      (dict : String × String → Option (String × String))
      (region : Int × Int) (addl : Bool) (sid : String) (keep : Bool),
      lineL.length ≤ 12 ∨ lineR.length ≤ 12 →
      parse_bowtie_result lmm ltc lme lineL lineR dict region addl sid keep =
        .ok none)
    ∧ (∀ (lmm ltc lme : Nat) (lineL lineR : List String)
      (dict : String × String → Option (String × String))
      (region : Int × Int) (addl : Bool) (sid : String) (keep : Bool)
      (key : String × String) (hit : BowtieHit),
      parse_bowtie_result lmm ltc lme lineL lineR dict region addl sid keep =
        .ok (some (key, hit)) →
      is_significant lmm ltc lme (lineTokens lineL) = some true ∧
        is_significant lmm ltc lme (lineTokens lineR) = some true)
    ∧ (∀ (lmm ltc lme : Nat) (lineL lineR : List String)
      (dict : String × String → Option (String × String))
      (region : Int × Int) (addl : Bool) (sid : String) (keep : Bool),
      ¬(lineL.length ≤ 12 ∨ lineR.length ≤ 12) →
      (is_significant lmm ltc lme (lineTokens lineL) = some false ∨
        (is_significant lmm ltc lme (lineTokens lineL) = some true ∧
          is_significant lmm ltc lme (lineTokens lineR) = some false)) →
      parse_bowtie_result lmm ltc lme lineL lineR dict region addl sid keep =
        .ok none) := by
  refine ⟨?_, ?_, ?_⟩
  · intro lmm ltc lme lineL lineR dict region addl sid keep h
    unfold parse_bowtie_result
    rw [if_pos h]
  · intro lmm ltc lme lineL lineR dict region addl sid keep key hit h
    obtain ⟨cp, -, hL, hR, -, -, -⟩ :=
      parse_bowtie_result_ok_some lmm ltc lme lineL lineR dict region addl sid
        keep key hit h
    exact ⟨hL, hR⟩
  · intro lmm ltc lme lineL lineR dict region addl sid keep hlong hsig
    unfold parse_bowtie_result
    rw [if_neg hlong]
    rcases hsig with hL | ⟨hL, hR⟩
    · rw [hL]
    · rw [hL, hR]

/-- Witness for claim C8: a short record pair yields no hit; the sample
records materialize a hit with both sides significant; and a forward
encoding `MD:Z:2` (not significant under the default thresholds) makes the
pair silently skipped. -/
theorem claim_C8_no_hit_witness :
    parse_bowtie_result 3 12 5 ["x"] ["y"] (fun _ => none) (0, 0) false "" false =
      .ok none ∧
    (is_significant 3 12 5 (lineTokens sampleLineL) = some true ∧
      is_significant 3 12 5 (lineTokens sampleLineR) = some true) ∧
    parse_bowtie_result 3 12 5 sampleBadLineL sampleLineR sampleDict (0, 1000)
        false "gi123" false = .ok none :=
  ⟨claim_C8_no_hit.1 3 12 5 ["x"] ["y"] (fun _ => none) (0, 0) false "" false
      (by decide),
   claim_C8_no_hit.2.1 3 12 5 sampleLineL sampleLineR sampleDict (0, 1000)
      false "gi123" false ("PRIMER_LEFT_0", "PRIMER_RIGHT_0") sampleHit
      (by decide),
   claim_C8_no_hit.2.2 3 12 5 sampleBadLineL sampleLineR sampleDict (0, 1000)
      false "gi123" false (by decide) (Or.inl (by decide))⟩

/-- Claim C9: primer-pair identity is order-independent: the key built from
two primer names is their sorted tuple, so `(f, r)` and `(r, f)` collapse
to the same key; the registry of `parse_existing_primer` is keyed by that
same sorted tuple; and every key the classifier returns is the sorted tuple
of the two reported name fields. -/
theorem claim_C9_pair_identity :
    (∀ f r : String, sortPair f r = sortPair r f)
    ∧ (∀ ls rs : List (String × String),
      (build_primer_dict ls rs).map Prod.fst =
        (ls.zip rs).map (fun p => sortPair p.1.1 p.2.1))
    ∧ (∀ (lmm ltc lme : Nat) (lineL lineR : List String)
      (dict : String × String → Option (String × String))
      (region : Int × Int) (addl : Bool) (sid : String) (keep : Bool)
      (key : String × String) (hit : BowtieHit),
      parse_bowtie_result lmm ltc lme lineL lineR dict region addl sid keep =
        .ok (some (key, hit)) →
      key = sortPair (lineL.getD 0 "") (lineR.getD 0 "")) := by
  refine ⟨?_, ?_, ?_⟩
  · intro f r
    unfold sortPair pyLt
    rcases strLtB_trichotomy f.data r.data with h | h | h
    · rw [if_pos h, if_neg (by simp [strLtB_asymm _ _ h])]
    · have hfr : f = r := by
        cases f
        cases r
        exact congrArg String.mk h
      subst hfr
      rfl
    · rw [if_neg (by simp [strLtB_asymm _ _ h]), if_pos h]
  · intro ls rs
    simp only [build_primer_dict, List.map_map]
    rfl
  · intro lmm ltc lme lineL lineR dict region addl sid keep key hit h
    obtain ⟨cp, -, -, -, -, hk, -⟩ :=
      parse_bowtie_result_ok_some lmm ltc lme lineL lineR dict region addl sid
        keep key hit h
    exact hk

/-- Witness for claim C9: on the sample records the classifier's key is the
sorted tuple of the two name fields. -/
theorem claim_C9_pair_identity_witness :
    (("PRIMER_LEFT_0", "PRIMER_RIGHT_0") : String × String) =
      sortPair (sampleLineL.getD 0 "") (sampleLineR.getD 0 "") :=
  claim_C9_pair_identity.2.2 3 12 5 sampleLineL sampleLineR sampleDict
    (0, 1000) false "gi123" false ("PRIMER_LEFT_0", "PRIMER_RIGHT_0") sampleHit
    (by decide)

/-!
### The aggregation loop of `main` (src/genuprimer.py lines 455-489)

`main` collects each classified hit string under its pair key in the dict
`results` (insertion order, `setdefault(...).append(...)`), walks
`sorted(results.keys())` skipping every key whose group has more than
`LIMIT_NUMBER_OF_MATCHES` hits, writes the fixed header, then writes the
surviving groups ordered by `sorted(printable_res, key=len)`, each hit on
its own line.
-/

/-- `RESULT_HEADER` (line 19). -/
def RESULT_HEADER : String := "FWD_ID,REV_ID,MATCH_ID,FWD,REV,START,STOP,LENGTH,EXP"

/-- The distinct keys of the classified-hit stream in first-occurrence
order: the key set of the Python dict `results` (lines 456-466). -/
def dedupFirst (l : List (String × String)) : List (String × String) :=
  l.foldl (fun acc k => if k ∈ acc then acc else acc ++ [k]) []

/-- `results[k]`: the hit strings recorded under key `k`, in stream
order. -/
def groupFor (hits : List ((String × String) × String)) (k : String × String) :
    List String :=
  (hits.filter (fun p => decide (p.1 = k))).map Prod.snd

/-- Python tuple comparison on two string pairs, the order used by
`sorted(results.keys())` (line 473). -/
def keyLE (a b : String × String) : Prop :=
  pyLt a.1 b.1 = true ∨ (a.1 = b.1 ∧ (pyLt a.2 b.2 = true ∨ a.2 = b.2))

instance : DecidableRel keyLE := fun a b => by unfold keyLE; infer_instance

/-- Comparison by group size, the order of `sorted(printable_res, key=len)`
(line 485). -/
def lenLe (a b : List String) : Prop := a.length ≤ b.length

instance : DecidableRel lenLe := fun a b => Nat.decLe a.length b.length

instance : IsTotal (List String) lenLe := ⟨fun a b => Nat.le_total a.length b.length⟩

instance : IsTrans (List String) lenLe := ⟨fun _ _ _ hab hbc => Nat.le_trans hab hbc⟩

/-- The keys surviving the match-count cap: `sorted(results.keys())` with
every key whose group exceeds the limit skipped (lines 472-482). -/
def survivors (hits : List ((String × String) × String)) (limit : Nat) :
    List (String × String) :=
  (List.insertionSort keyLE (dedupFirst (hits.map Prod.fst))).filter
    (fun k => decide ((groupFor hits k).length ≤ limit))

/-- The emitted groups in final order, smallest group first (line 485). -/
def aggregate_groups (hits : List ((String × String) × String)) (limit : Nat) :
    List (List String) :=
  List.insertionSort lenLe ((survivors hits limit).map (groupFor hits))

/-- The lines written to the output (lines 484-489): the fixed header, then
every hit of every surviving group. -/
def aggregate (hits : List ((String × String) × String)) (limit : Nat) :
    List String :=
  RESULT_HEADER :: (aggregate_groups hits limit).flatten

/-- Membership in the folded dict-key accumulation. -/
theorem mem_dedupFirst_aux (l : List (String × String)) :
    ∀ (acc : List (String × String)) (k : String × String),
    (k ∈ l.foldl (fun acc k => if k ∈ acc then acc else acc ++ [k]) acc) ↔
      (k ∈ acc ∨ k ∈ l) := by
  induction l with
  | nil => intro acc k; simp
  | cons a l ih =>
    intro acc k
    simp only [List.foldl_cons]
    rw [ih]
    by_cases ha : a ∈ acc
    · rw [if_pos ha]
      constructor
      · rintro (h | h)
        · exact Or.inl h
        · exact Or.inr (List.mem_cons_of_mem _ h)
      · rintro (h | h)
        · exact Or.inl h
        · rcases List.mem_cons.mp h with rfl | h
          · exact Or.inl ha
          · exact Or.inr h
    · rw [if_neg ha]
      simp only [List.mem_append, List.mem_singleton, List.mem_cons]
      tauto

/-- A key occurs among the dict keys iff it occurs in the stream. -/
theorem mem_dedupFirst (l : List (String × String)) (k : String × String) :
    k ∈ dedupFirst l ↔ k ∈ l := by
  unfold dedupFirst
  rw [mem_dedupFirst_aux]
  simp

/-- Hits with two keys: six records under `("a","a")` and five under
`("b","b")`. -/
def sixFiveHits : List ((String × String) × String) :=
  List.replicate 6 ((("a", "a"), "hitA")) ++ List.replicate 5 ((("b", "b"), "hitB"))

/-- Claim C6: the aggregator keeps a pair key iff it occurs in the stream
and its group does not exceed the match limit (so a group whose hit count
strictly exceeds the limit is dropped entirely); the header row is the
first output line; every hit of each surviving group is emitted; the
emitted groups are ordered by ascending hit count; and with limit 5 a pair
with exactly 6 hits never appears while one with exactly 5 does. -/
theorem claim_C6_aggregator :
    (∀ (hits : List ((String × String) × String)) (limit : Nat)
      (k : String × String),
      k ∈ survivors hits limit ↔
        (k ∈ hits.map Prod.fst ∧ (groupFor hits k).length ≤ limit))
    ∧ (∀ hits limit, (aggregate hits limit).head? = some RESULT_HEADER)
    ∧ (∀ hits limit k v, k ∈ survivors hits limit → v ∈ groupFor hits k →
        v ∈ aggregate hits limit)
    ∧ (∀ hits limit, (aggregate_groups hits limit).Pairwise lenLe)
    ∧ (("a", "a") ∉ survivors sixFiveHits 5
      ∧ ("b", "b") ∈ survivors sixFiveHits 5
      ∧ (groupFor sixFiveHits ("a", "a")).length = 6
      ∧ (groupFor sixFiveHits ("b", "b")).length = 5) := by
  refine ⟨?_, fun _ _ => rfl, ?_, ?_, by decide⟩
  · intro hits limit k
    unfold survivors
    rw [List.mem_filter, List.mem_insertionSort, mem_dedupFirst,
      decide_eq_true_eq]
  · intro hits limit k v hk hv
    have hg : groupFor hits k ∈ aggregate_groups hits limit := by
      unfold aggregate_groups
      rw [List.mem_insertionSort]
      exact List.mem_map_of_mem _ hk
    exact List.mem_cons_of_mem _ (List.mem_flatten.mpr ⟨_, hg, hv⟩)
  · intro hits limit
    exact List.sorted_insertionSort lenLe _

/-- Witness for claim C6: the five-hit pair survives and its hits appear in
the output of `aggregate` on the concrete stream. -/
theorem claim_C6_aggregator_witness :
    ("b", "b") ∈ survivors sixFiveHits 5 ∧
      "hitB" ∈ groupFor sixFiveHits ("b", "b") ∧
      "hitB" ∈ aggregate sixFiveHits 5 :=
  ⟨by decide, by decide,
    claim_C6_aggregator.2.2.1 sixFiveHits 5 ("b", "b") "hitB" (by decide)
      (by decide)⟩

end Genuprimer
